import Mathlib

/-!
# Verification of the shrek CN processing pipeline

Shallow embedding of the peak-classification logic of `CN.py`, the shared
constants of `CN_lib.py`, and the blank-correction / quantity-calibration
arithmetic of `CN_calibrate.py`, together with theorems settling the frozen
claims about the natural-language specification of this repository.

Conventions:
* Raw-file cells that `CN.py` reads with `int(...)` successfully are embedded
  as `Int`; the `AreaAll` cell keeps its dynamic Python type (`int`, `str`, or
  `None`) because the 5-row branch tests `type(...) == int` on it.
* A peak slot receiving "the data of row k" is recorded as the entry `some k`
  (0-based row index inside the analysis); an explicit `None` fill (the
  `*_none()` helpers) is recorded as `none`.  Each slot collection is a list of
  the entries appended while processing one analysis, so that the number of
  appends performed by each branch is visible.
* numpy float arithmetic in `CN_calibrate.py` is embedded over `ℚ` extended
  with `nan`/`±inf` markers where the non-finite behaviour matters
  (`NPF`); rounding error is abstracted away (all claim inputs are exact).
-/

namespace CN

/-- Dynamic type of a raw data cell, as far as `CN.py` inspects it:
Python `int`, `str`, or `None`.  Used for `AreaAll`, whose 5-row branch runs
`type(data['AreaAll'][...]) == int`. -/
inductive Value where
  | intV (n : Int)
  | strV (s : String)
  | noneV
  deriving DecidableEq

/-- One raw data row of an analysis, restricted to the cells the classifier
in `CN.py` actually inspects: the gas-configuration label, the amplitude
channels (read through `int(...)`), and `AreaAll`. -/
structure Row where
  gasconf : Option String
  Ampl28 : Int
  Ampl29 : Int
  Ampl44 : Int
  Ampl45 : Int
  Ampl46 : Int
  AreaAll : Value
  deriving DecidableEq

/-- Default row used for out-of-range `List.getD` access; the classifier only
indexes rows that exist for the branch taken, so it is never consulted in the
theorems below. -/
def dRow : Row := ⟨none, 0, 0, 0, 0, 0, Value.noneV⟩

/-- Per-analysis mutable state of the main loop of `CN.py`: the four peak-slot
collections (`N_wg_data`, `N_sam_data`, `C_sam_data`, `C_wg_data`, one entry
appended per analysis in the intended flow), the `trust` flag and the `note`
list. -/
structure CState where
  N_wg : List (Option Nat)
  N_sam : List (Option Nat)
  C_sam : List (Option Nat)
  C_wg : List (Option Nat)
  trust : Nat
  notes : List String
  deriving DecidableEq

/-- Fresh per-analysis state: `note = []`, `trust = 1` (CN.py lines 255-256). -/
def st0 : CState := ⟨[], [], [], [], 1, []⟩

/-- `sample_note(currnote)` of CN.py: appends the note (the print is I/O). -/
def sample_note (st : CState) (s : String) : CState :=
  { st with notes := st.notes ++ [s] }

/-- `Ampl28 > 49950 or Ampl29 > 49950` (CN.py line 81). -/
def N_saturated (r : Row) : Prop := 49950 < r.Ampl28 ∨ 49950 < r.Ampl29

instance (r : Row) : Decidable (N_saturated r) :=
  inferInstanceAs (Decidable (_ ∨ _))

/-- `Ampl44 > 49950 or Ampl45 > 49950 or Ampl46 > 49950` (CN.py line 90). -/
def C_saturated (r : Row) : Prop :=
  49950 < r.Ampl44 ∨ 49950 < r.Ampl45 ∨ 49950 < r.Ampl46

instance (r : Row) : Decidable (C_saturated r) :=
  inferInstanceAs (Decidable (_ ∨ _))

/-- `append_N_wg_data()`: nitrogen reference slot takes the data of row `k`. -/
def append_N_wg_data (st : CState) (k : Nat) : CState :=
  { st with N_wg := st.N_wg ++ [some k] }

/-- `append_N_sam_data()`: nitrogen sample slot takes the data of row `k`;
then, if either N amplitude channel of that row exceeds 49950, `trust` is
forced to 0 and the note `N2 cup saturated` is appended. -/
def append_N_sam_data (a : List Row) (st : CState) (k : Nat) : CState :=
  if N_saturated (a.getD k dRow) then
    sample_note { st with N_sam := st.N_sam ++ [some k], trust := 0 } "N2 cup saturated"
  else { st with N_sam := st.N_sam ++ [some k] }

/-- `append_C_sam_data()`: carbon sample slot takes the data of row `k`;
then, if any C amplitude channel of that row exceeds 49950, `trust` is forced
to 0 and the note `CO2 cup saturated` is appended. -/
def append_C_sam_data (a : List Row) (st : CState) (k : Nat) : CState :=
  if C_saturated (a.getD k dRow) then
    sample_note { st with C_sam := st.C_sam ++ [some k], trust := 0 } "CO2 cup saturated"
  else { st with C_sam := st.C_sam ++ [some k] }

/-- `append_C_wg_data()`: carbon reference slot takes the data of row `k`. -/
def append_C_wg_data (st : CState) (k : Nat) : CState :=
  { st with C_wg := st.C_wg ++ [some k] }

/-- `N_wg_none()`: appends an explicit `None` to the nitrogen reference slot. -/
def N_wg_none (st : CState) : CState := { st with N_wg := st.N_wg ++ [none] }

/-- `N_sam_none()`. -/
def N_sam_none (st : CState) : CState := { st with N_sam := st.N_sam ++ [none] }

/-- `C_sam_none()`. -/
def C_sam_none (st : CState) : CState := { st with C_sam := st.C_sam ++ [none] }

/-- `C_wg_none()`. -/
def C_wg_none (st : CState) : CState := { st with C_wg := st.C_wg ++ [none] }

/-- The `run_type == 'CN'` branch of the main loop of CN.py (lines 259-388),
acting on the rows `a` of one analysis (`rows = a.length`).  Row indices are
0-based: `peak_number_offset = j` addresses `a[j]`. -/
def classifyCN (a : List Row) : CState :=
  if a.length = 1 then
    C_wg_none (C_sam_none (N_sam_none (N_wg_none
      (sample_note { st0 with trust := 0 } "Only one peak detected; "))))
  else if a.length = 2 then
    let st := append_N_wg_data st0 0
    if (a.getD 1 dRow).gasconf = some "N2" then
      C_wg_none (C_sam_none (append_N_sam_data a (sample_note st "No carbon peaks") 1))
    else if (a.getD 1 dRow).gasconf = some "CO2" then
      append_C_wg_data
        (C_sam_none (N_sam_none (sample_note st "No nitrogen or carbon sample peaks"))) 1
    else
      st
  else if a.length = 3 then
    let st := append_N_wg_data st0 0
    let st :=
      if (a.getD 1 dRow).gasconf = some "N2" then
        C_sam_none (append_N_sam_data a st 1)
      else if (a.getD 1 dRow).gasconf = some "CO2" then
        append_C_sam_data a (N_sam_none st) 1
      else
        st
    append_C_wg_data st 2
  else if a.length = 4 then
    append_C_wg_data
      (append_C_sam_data a (append_N_sam_data a (append_N_wg_data st0 0) 1) 2) 3
  else if a.length = 5 then
    if (a.map Row.gasconf).count (some "N2") = 2 then
      let st := append_N_sam_data a
        (append_N_wg_data (sample_note st0 "extra CO2 peak detected") 0) 1
      let st :=
        match (a.getD 2 dRow).AreaAll, (a.getD 3 dRow).AreaAll with
        | Value.intV x, Value.intV y =>
          if x > y then
            append_C_sam_data a (sample_note st "using larger first of two sample peaks") 2
          else
            append_C_sam_data a (sample_note st "using larger second of two sample peaks") 3
        | _, _ =>
          C_sam_none (sample_note { st with trust := 0 } "problem with AreaAll data")
      append_C_wg_data st 4
    else if (a.map Row.gasconf).count (some "CO2") = 2 then
      sample_note
        (append_C_wg_data (append_C_sam_data a (N_sam_none (N_wg_none st0)) 3) 4)
        "5 peaks in sample and N2 has extra"
    else
      sample_note
        { C_wg_none (C_sam_none (N_sam_none (N_wg_none st0))) with trust := 0 }
        "5 peaks in sample but something unexpected happened"
  else if a.length = 6 then
    sample_note
      { C_wg_none (C_sam_none (N_sam_none (N_wg_none st0))) with trust := 0 }
      "6 peaks in sample"
  else
    sample_note
      { C_wg_none (C_sam_none (N_sam_none (N_wg_none st0))) with trust := 0 }
      "too many peaks causes anxiety"

/-- The `run_type == 'N'` branch (CN.py lines 390-413). -/
def classifyN (a : List Row) : CState :=
  let st := C_wg_none (C_sam_none st0)
  if a.length = 4 then
    N_sam_none (append_N_wg_data st 1)
  else if a.length = 5 then
    sample_note (append_N_sam_data a (append_N_wg_data st 1) 4)
      "No nitrogen sample peaks"
  else
    sample_note { N_sam_none (N_wg_none st) with trust := 0 }
      "Number of peaks suggests an error"

/-- The `run_type == 'C'` branch (CN.py lines 415-438). -/
def classifyC (a : List Row) : CState :=
  let st := N_sam_none (N_wg_none st0)
  if a.length = 4 then
    C_sam_none (append_C_wg_data st 1)
  else if a.length = 5 then
    sample_note (append_C_sam_data a (append_C_wg_data st 1) 4)
      "No carbon sample peaks"
  else
    sample_note { C_sam_none (C_wg_none st) with trust := 0 }
      "Number of peaks suggests and error"

/-- Dispatch on `run_type` inside the per-analysis loop (CN.py lines 259,
390, 415, 440).  The final `else` is the `Run type unknown` branch. -/
def classify (run_type : String) (a : List Row) : CState :=
  if run_type = "CN" then classifyCN a
  else if run_type = "N" then classifyN a
  else if run_type = "C" then classifyC a
  else
    sample_note
      { C_wg_none (C_sam_none (N_sam_none (N_wg_none st0))) with trust := 0 }
      "Run type unknown"

/-- Run-type determination (CN.py lines 241-249) from the set of gas
configuration labels of the whole file (`set(data[gas_config_name[0]])`,
modelled by membership in the raw column).  The chain
`if any / if all / elif N2 missing / elif CO2 missing` is exhaustive, so the
final case of the inner chain is written as `'N'` directly. -/
def run_type_of (gasConfiguration : List (Option String)) : String :=
  if some "N2" ∈ gasConfiguration ∨ some "CO2" ∈ gasConfiguration then
    if some "N2" ∈ gasConfiguration ∧ some "CO2" ∈ gasConfiguration then "CN"
    else if some "N2" ∉ gasConfiguration then "C"
    else "N"
  else "unk"

/-- Outcome of processing one raw file: the per-analysis states appended to the
logs, and the directory the raw file is moved to. -/
structure FileOutcome where
  emitted : List CState
  moved_to : String
  deriving DecidableEq

/-- File-level dispatch of the main loop (CN.py lines 251, 480-484): when the
run type is `CN`, `N` or `C`, every analysis is classified and the file is
archived; otherwise nothing is emitted and the file goes to the junk
directory. -/
def processFile (analyses : List (List Row)) (gasConfiguration : List (Option String)) :
    FileOutcome :=
  let rt := run_type_of gasConfiguration
  if rt = "CN" ∨ rt = "N" ∨ rt = "C" then
    { emitted := analyses.map (classify rt), moved_to := "rawdata_archive" }
  else
    { emitted := [], moved_to := "rawdata_junk" }

/-! ## Analysis-id conversion (CN.py lines 211-218)

The main loop runs, for each `n` in the Analysis column,
`try: data['Analysis'] = [int(...) for ...] except ValueError: <move file to
junk>; continue`.  The `continue` targets this inner `for n` loop, not the
file loop: after the file has been moved, the next iteration retries the
conversion, fails again, and the second `os.rename` then raises an uncaught
`FileNotFoundError`.  Only a one-entry column finishes the inner loop, and
then the outer loop body keeps processing the already-moved file. -/

/-- Result of the inner `for n in data['Analysis']` conversion loop. -/
inductive IdCheck where
  | converted (xs : List Int)
  | movedThenKeptProcessing
  | movedThenCrashed
  deriving DecidableEq

/-- Decimal digit value of a character, `none` on a non-digit. -/
def char_digit? (c : Char) : Option Nat :=
  if '0' ≤ c ∧ c ≤ '9' then some (c.toNat - '0'.toNat) else none

/-- Accumulating decimal parse of a digit string. -/
def nat_of_digits : List Char → Nat → Option Nat
  | [], acc => some acc
  | c :: rest, acc =>
    match char_digit? c with
    | some d => nat_of_digits rest (acc * 10 + d)
    | none => none

/-- Python `int(s)` on a plain (optionally sign-prefixed) decimal numeral;
`none` models the `ValueError` raised on anything else. -/
def int_of_string? (s : String) : Option Int :=
  match s.data with
  | [] => none
  | '-' :: rest =>
    if rest = [] then none else (nat_of_digits rest 0).map (fun n => -(n : Int))
  | cs => (nat_of_digits cs 0).map (fun n => (n : Int))

/-- `int(...)` conversion of the whole column, `None` on the first failure. -/
def toIntAll : List String → Option (List Int)
  | [] => some []
  | s :: rest =>
    match int_of_string? s, toIntAll rest with
    | some n, some ns => some (n :: ns)
    | _, _ => none

/-- The inner conversion loop of CN.py lines 211-218.  If every entry parses,
the column is converted on the first iteration (later iterations are no-ops).
Otherwise iteration 1 hits `ValueError`, moves the file to the junk
directory and `continue`s the *inner* loop; when a second iteration exists
(column length ≥ 2) the conversion fails again and the `os.rename` of the
already-moved file raises an uncaught `FileNotFoundError`, crashing the batch;
with a one-entry column the inner loop ends and the outer loop body continues
processing the quarantined file. -/
def analysis_id_check (col : List String) : IdCheck :=
  match toIntAll col with
  | some xs => IdCheck.converted xs
  | none =>
    match col with
    | [] => IdCheck.converted []
    | [_] => IdCheck.movedThenKeptProcessing
    | _ => IdCheck.movedThenCrashed

/-! ## Log-file columns and writing (CN_lib.py lines 80-95, CN.py 452-478) -/

/-- `meta_headers` of CN_lib.py. -/
def meta_headers : List String :=
  ["Amount", "Analysis", "Comment", "Date", "Identifier1", "Identifier2",
   "Information", "Line", "Method", "Row", "Time"]

/-- `N_headers` of CN_lib.py. -/
def N_headers : List String :=
  ["Ampl28", "Ampl29", "AreaAll", "Area28", "Area29", "BGD28", "BGD29",
   "Gasconfiguration", "R15N14N", "d15N14N", "PeakNr", "Start", "Width"]

/-- `C_headers` of CN_lib.py. -/
def C_headers : List String :=
  ["Ampl44", "Ampl45", "Ampl46", "AreaAll", "Area44", "Area45", "Area46",
   "BGD44", "BGD45", "BGD46", "Gasconfiguration", "PeakNr", "R13C12C",
   "d13C12C", "Start", "Width"]

/-- `supp_headers` of CN_lib.py. -/
def supp_headers : List String :=
  ["file", "trust", "notes", "peak_center", "pyversions", "empty"]

/-- `shrekCN_analysis_log_headers` of CN_lib.py lines 80-86: the only
header-list name defined by the library (CN_lib.py kept this name when the
scripts were renamed from `shrekCN*` to `CN*`). -/
def shrekCN_analysis_log_headers : List String :=
  meta_headers ++ N_headers.map (fun i => "N_wg_" ++ i)
    ++ N_headers.map (fun i => "N_sam_" ++ i)
    ++ C_headers.map (fun i => "C_sam_" ++ i)
    ++ C_headers.map (fun i => "C_wg_" ++ i)
    ++ supp_headers

/-- The global names (relevant to log writing) that `from CN_lib import *`
brings into scope in CN.py.  `CN_analysis_log_headers` — the name CN.py line
456 actually uses — is not among them. -/
def CN_lib_globals : List (String × List String) :=
  [("shrekCN_analysis_log_headers", shrekCN_analysis_log_headers)]

/-- Python global-name lookup as performed when evaluating
`datawriter.writerow(CN_analysis_log_headers)`. -/
def lookup_global (n : String) : Option (List String) :=
  (CN_lib_globals.find? (fun p => p.1 == n)).map (fun p => p.2)

/-- A written log row: one `Option String` per column (`None` is serialized as
the empty cell). -/
abbrev LogRow := List (Option String)

/-- Outcome of one log-writing pass: either the resulting file contents, or an
uncaught Python exception. -/
inductive LogWrite where
  | ok (lines : List LogRow)
  | nameError (msg : String)
  deriving DecidableEq

/-- Log writing for one processed file (CN.py lines 452-464, identically
467-478 for the project log): when the log file does not yet exist it is
created and the header row named `CN_analysis_log_headers` is written first —
evaluating that name raises `NameError`, because the library only defines
`shrekCN_analysis_log_headers`; when the file exists, the data rows are
appended after its current contents. -/
def write_analysis_log (existing : Option (List LogRow)) (rows : List LogRow) :
    LogWrite :=
  match existing with
  | none =>
    match lookup_global "CN_analysis_log_headers" with
    | none => LogWrite.nameError "name CN_analysis_log_headers is not defined"
    | some hs => LogWrite.ok ((hs.map some) :: rows)
  | some lines => LogWrite.ok (lines ++ rows)

/-! ## Blank correction (CN_calibrate.py lines 230-253) -/

/-- `np.nanmean` over a column slice whose missing values are `none`, composed
with the `np.any(~np.isnan(...))` guard of CN_calibrate.py lines 234-241:
`none` when there is no finite value to average. -/
def nanmean (xs : List (Option ℚ)) : Option ℚ :=
  let ys := xs.filterMap id
  if ys = [] then none else some (ys.sum / (ys.length : ℚ))

/-- Fancy-indexing a column by an index list (`col[blank['index']]`). -/
def select (col : List (Option ℚ)) (idx : List Nat) : List (Option ℚ) :=
  idx.map (fun j => col.getD j none)

/-- Result of the nitrogen blank-correction section. -/
structure BlankCorr where
  N_sam_AreaAll_blank_corr : List (Option ℚ)
  d15N_blank_corr : List (Option ℚ)
  calculation_notes : List String
  deriving DecidableEq

/-- The blank-corrected delta of one record:
`(d * a - bD * bA) / (a - bA)` with NaN propagation; numpy produces a
non-finite value when `a = bA`, modelled as `none`. -/
def blank_corr_delta (bA bD : ℚ) (d a : Option ℚ) : Option ℚ :=
  match d, a with
  | some d, some a => if a - bA = 0 then none else some ((d * a - bD * bA) / (a - bA))
  | _, _ => none

/-- CN_calibrate.py lines 233-253: if the blank category has records and both
the mean blank peak area (`blank['size_Vs']`) and mean blank δ15N
(`blank['d15N']`) are finite, every record is corrected by
`area - size_Vs` and the two-source mixing formula; otherwise the corrected
columns equal the raw columns and the `NOT applied` calculation note is
recorded. -/
def blank_correction (blank_index : List Nat)
    (N_sam_AreaAll N_sam_d15N14N : List (Option ℚ)) : BlankCorr :=
  if blank_index ≠ [] then
    let size_Vs := nanmean (select N_sam_AreaAll blank_index)
    let d15N := nanmean (select N_sam_d15N14N blank_index)
    match size_Vs, d15N with
    | some bA, some bD =>
      { N_sam_AreaAll_blank_corr := N_sam_AreaAll.map (fun a => a.map (fun q => q - bA)),
        d15N_blank_corr := List.zipWith (blank_corr_delta bA bD) N_sam_d15N14N N_sam_AreaAll,
        calculation_notes := ["nitrogen blank correction applied"] }
    | _, _ =>
      { N_sam_AreaAll_blank_corr := N_sam_AreaAll,
        d15N_blank_corr := N_sam_d15N14N,
        calculation_notes := ["nitrogen blank correction NOT applied"] }
  else
    { N_sam_AreaAll_blank_corr := N_sam_AreaAll,
      d15N_blank_corr := N_sam_d15N14N,
      calculation_notes := ["nitrogen blank correction NOT applied"] }

/-! ## Quantity calibration (CN_calibrate.py lines 262-274) -/

/-- `np.polyfit(x, y, 1)` for the quantity fit: the closed-form least-squares
solution of the degree-1 normal equations, returned as (slope, intercept) —
numpy returns the highest-degree coefficient first, and the code reads
`fit[0]` as slope and `fit[1]` as intercept. -/
def polyfit1 (x y : List ℚ) : ℚ × ℚ :=
  let n : ℚ := x.length
  let sx := x.sum
  let sy := y.sum
  let sxx := (x.map (fun t => t * t)).sum
  let sxy := (List.zipWith (fun s t => s * t) x y).sum
  let slope := (n * sxy - sx * sy) / (n * sxx - sx * sx)
  (slope, (sy - slope * sx) / n)

/-- `Nqty = (N_sam_AreaAll_blank_corr - fit[1]) / fit[0]` for one record. -/
def quantity_from_area (fit : ℚ × ℚ) (area : ℚ) : ℚ := (area - fit.2) / fit.1

/-- Abstraction of a numpy double as far as `Nqty / Amount * 100` needs it:
a finite rational, `±inf`, or `nan`. -/
inductive NPF where
  | fin (q : ℚ)
  | pinf
  | ninf
  | nan
  deriving DecidableEq

/-- IEEE-double multiplication on the abstraction. -/
def NPF.mul : NPF → NPF → NPF
  | NPF.nan, _ => NPF.nan
  | _, NPF.nan => NPF.nan
  | NPF.fin a, NPF.fin b => NPF.fin (a * b)
  | NPF.pinf, NPF.fin b => if b = 0 then NPF.nan else if 0 < b then NPF.pinf else NPF.ninf
  | NPF.fin a, NPF.pinf => if a = 0 then NPF.nan else if 0 < a then NPF.pinf else NPF.ninf
  | NPF.ninf, NPF.fin b => if b = 0 then NPF.nan else if 0 < b then NPF.ninf else NPF.pinf
  | NPF.fin a, NPF.ninf => if a = 0 then NPF.nan else if 0 < a then NPF.ninf else NPF.pinf
  | NPF.pinf, NPF.pinf => NPF.pinf
  | NPF.pinf, NPF.ninf => NPF.ninf
  | NPF.ninf, NPF.pinf => NPF.ninf
  | NPF.ninf, NPF.ninf => NPF.pinf

/-- IEEE-double division on the abstraction (with `np.errstate` the warnings
are suppressed and the IEEE results stand): `x / 0` is `±inf` for `x ≠ 0` and
`nan` for `x = 0`. -/
def NPF.div : NPF → NPF → NPF
  | NPF.nan, _ => NPF.nan
  | _, NPF.nan => NPF.nan
  | NPF.fin a, NPF.fin b =>
    if b = 0 then (if a = 0 then NPF.nan else if 0 < a then NPF.pinf else NPF.ninf)
    else NPF.fin (a / b)
  | NPF.pinf, NPF.fin b => if 0 ≤ b then NPF.pinf else NPF.ninf
  | NPF.ninf, NPF.fin b => if 0 ≤ b then NPF.ninf else NPF.pinf
  | NPF.fin _, NPF.pinf => NPF.fin 0
  | NPF.fin _, NPF.ninf => NPF.fin 0
  | _, NPF.pinf => NPF.nan
  | _, NPF.ninf => NPF.nan

/-- `np.finfo(float).max`, the default replacement `np.nan_to_num` uses for
`+inf`: exactly `(2^53 - 1) * 2^971 ≈ 1.7976931348623157e308`. -/
def max_float : ℚ := (2 ^ 53 - 1) * 2 ^ 971

/-- `np.nan_to_num` with default arguments: `nan → 0`, `±inf → ±max_float`. -/
def nan_to_num : NPF → ℚ
  | NPF.fin q => q
  | NPF.pinf => max_float
  | NPF.ninf => -max_float
  | NPF.nan => 0

/-- `PercentN = np.nan_to_num(Nqty / Amount * 100)` for one record
(CN_calibrate.py lines 272-274). -/
def percent_composition (qty amount : NPF) : ℚ :=
  nan_to_num (NPF.mul (NPF.div qty amount) (NPF.fin 100))

/-- `type(x) == int` of CN.py line 336. -/
def is_intV : Value → Bool
  | Value.intV _ => true
  | _ => false

/-! ## Concrete rows used when instantiating the theorems -/

/-- An unsaturated `N2`-labelled row. -/
def exRowN2 : Row := ⟨some "N2", 100, 200, 300, 400, 500, Value.intV 50⟩

/-- An unsaturated `CO2`-labelled row with `AreaAll = 40`. -/
def exRowCO2 : Row := ⟨some "CO2", 100, 200, 300, 400, 500, Value.intV 40⟩

/-- An unsaturated `CO2`-labelled row with `AreaAll = 30`. -/
def exRowCO2b : Row := ⟨some "CO2", 100, 200, 300, 400, 500, Value.intV 30⟩

/-- A row whose gas label is neither `N2` nor `CO2`. -/
def exRowHe : Row := ⟨some "He", 0, 0, 0, 0, 0, Value.noneV⟩

/-- An `N2`-labelled row whose `Ampl28` exceeds the 49950 saturation bound. -/
def exRowN2sat : Row := ⟨some "N2", 50000, 200, 300, 400, 500, Value.intV 50⟩

/-- A `CO2`-labelled row whose `Ampl44` exceeds the 49950 saturation bound. -/
def exRowCO2sat : Row := ⟨some "CO2", 100, 200, 50000, 400, 500, Value.intV 40⟩

/-- The `N_sam_AreaAll` column of the blank-correction example: two blank
records with peak areas 10 and 12, and one sample record with area 100. -/
def exAreas : List (Option ℚ) := [some 10, some 12, some 100]

/-- The `N_sam_d15N14N` column of the blank-correction example: blank deltas
-2 and -4, sample delta -5. -/
def exDeltas : List (Option ℚ) := [some (-2), some (-4), some (-5)]

/-! ## Field-projection lemmas for the per-analysis operations -/

@[simp] theorem sample_note_N_wg (st : CState) (s : String) :
    (sample_note st s).N_wg = st.N_wg := rfl

@[simp] theorem sample_note_N_sam (st : CState) (s : String) :
    (sample_note st s).N_sam = st.N_sam := rfl

@[simp] theorem sample_note_C_sam (st : CState) (s : String) :
    (sample_note st s).C_sam = st.C_sam := rfl

@[simp] theorem sample_note_C_wg (st : CState) (s : String) :
    (sample_note st s).C_wg = st.C_wg := rfl

@[simp] theorem sample_note_trust (st : CState) (s : String) :
    (sample_note st s).trust = st.trust := rfl

@[simp] theorem sample_note_notes (st : CState) (s : String) :
    (sample_note st s).notes = st.notes ++ [s] := rfl

@[simp] theorem append_N_wg_data_N_wg (st : CState) (k : Nat) :
    (append_N_wg_data st k).N_wg = st.N_wg ++ [some k] := rfl

@[simp] theorem append_N_wg_data_N_sam (st : CState) (k : Nat) :
    (append_N_wg_data st k).N_sam = st.N_sam := rfl

@[simp] theorem append_N_wg_data_C_sam (st : CState) (k : Nat) :
    (append_N_wg_data st k).C_sam = st.C_sam := rfl

@[simp] theorem append_N_wg_data_C_wg (st : CState) (k : Nat) :
    (append_N_wg_data st k).C_wg = st.C_wg := rfl

@[simp] theorem append_N_wg_data_trust (st : CState) (k : Nat) :
    (append_N_wg_data st k).trust = st.trust := rfl

@[simp] theorem append_N_wg_data_notes (st : CState) (k : Nat) :
    (append_N_wg_data st k).notes = st.notes := rfl

@[simp] theorem append_C_wg_data_N_wg (st : CState) (k : Nat) :
    (append_C_wg_data st k).N_wg = st.N_wg := rfl

@[simp] theorem append_C_wg_data_N_sam (st : CState) (k : Nat) :
    (append_C_wg_data st k).N_sam = st.N_sam := rfl

@[simp] theorem append_C_wg_data_C_sam (st : CState) (k : Nat) :
    (append_C_wg_data st k).C_sam = st.C_sam := rfl

@[simp] theorem append_C_wg_data_C_wg (st : CState) (k : Nat) :
    (append_C_wg_data st k).C_wg = st.C_wg ++ [some k] := rfl

@[simp] theorem append_C_wg_data_trust (st : CState) (k : Nat) :
    (append_C_wg_data st k).trust = st.trust := rfl

@[simp] theorem append_C_wg_data_notes (st : CState) (k : Nat) :
    (append_C_wg_data st k).notes = st.notes := rfl

@[simp] theorem append_N_sam_data_N_wg (a : List Row) (st : CState) (k : Nat) :
    (append_N_sam_data a st k).N_wg = st.N_wg := by
  unfold append_N_sam_data; split <;> rfl

@[simp] theorem append_N_sam_data_N_sam (a : List Row) (st : CState) (k : Nat) :
    (append_N_sam_data a st k).N_sam = st.N_sam ++ [some k] := by
  unfold append_N_sam_data; split <;> rfl

@[simp] theorem append_N_sam_data_C_sam (a : List Row) (st : CState) (k : Nat) :
    (append_N_sam_data a st k).C_sam = st.C_sam := by
  unfold append_N_sam_data; split <;> rfl

@[simp] theorem append_N_sam_data_C_wg (a : List Row) (st : CState) (k : Nat) :
    (append_N_sam_data a st k).C_wg = st.C_wg := by
  unfold append_N_sam_data; split <;> rfl

@[simp] theorem append_N_sam_data_trust (a : List Row) (st : CState) (k : Nat) :
    (append_N_sam_data a st k).trust =
      if N_saturated (a.getD k dRow) then 0 else st.trust := by
  unfold append_N_sam_data; split <;> simp_all

@[simp] theorem append_N_sam_data_notes (a : List Row) (st : CState) (k : Nat) :
    (append_N_sam_data a st k).notes =
      if N_saturated (a.getD k dRow) then st.notes ++ ["N2 cup saturated"] else st.notes := by
  unfold append_N_sam_data; split <;> simp_all

@[simp] theorem append_C_sam_data_N_wg (a : List Row) (st : CState) (k : Nat) :
    (append_C_sam_data a st k).N_wg = st.N_wg := by
  unfold append_C_sam_data; split <;> rfl

@[simp] theorem append_C_sam_data_N_sam (a : List Row) (st : CState) (k : Nat) :
    (append_C_sam_data a st k).N_sam = st.N_sam := by
  unfold append_C_sam_data; split <;> rfl

@[simp] theorem append_C_sam_data_C_sam (a : List Row) (st : CState) (k : Nat) :
    (append_C_sam_data a st k).C_sam = st.C_sam ++ [some k] := by
  unfold append_C_sam_data; split <;> rfl

@[simp] theorem append_C_sam_data_C_wg (a : List Row) (st : CState) (k : Nat) :
    (append_C_sam_data a st k).C_wg = st.C_wg := by
  unfold append_C_sam_data; split <;> rfl

@[simp] theorem append_C_sam_data_trust (a : List Row) (st : CState) (k : Nat) :
    (append_C_sam_data a st k).trust =
      if C_saturated (a.getD k dRow) then 0 else st.trust := by
  unfold append_C_sam_data; split <;> simp_all

@[simp] theorem append_C_sam_data_notes (a : List Row) (st : CState) (k : Nat) :
    (append_C_sam_data a st k).notes =
      if C_saturated (a.getD k dRow) then st.notes ++ ["CO2 cup saturated"] else st.notes := by
  unfold append_C_sam_data; split <;> simp_all

@[simp] theorem N_wg_none_fields (st : CState) :
    (N_wg_none st).N_wg = st.N_wg ++ [none] ∧ (N_wg_none st).N_sam = st.N_sam ∧
    (N_wg_none st).C_sam = st.C_sam ∧ (N_wg_none st).C_wg = st.C_wg ∧
    (N_wg_none st).trust = st.trust ∧ (N_wg_none st).notes = st.notes :=
  ⟨rfl, rfl, rfl, rfl, rfl, rfl⟩

@[simp] theorem N_sam_none_fields (st : CState) :
    (N_sam_none st).N_wg = st.N_wg ∧ (N_sam_none st).N_sam = st.N_sam ++ [none] ∧
    (N_sam_none st).C_sam = st.C_sam ∧ (N_sam_none st).C_wg = st.C_wg ∧
    (N_sam_none st).trust = st.trust ∧ (N_sam_none st).notes = st.notes :=
  ⟨rfl, rfl, rfl, rfl, rfl, rfl⟩

@[simp] theorem C_sam_none_fields (st : CState) :
    (C_sam_none st).N_wg = st.N_wg ∧ (C_sam_none st).N_sam = st.N_sam ∧
    (C_sam_none st).C_sam = st.C_sam ++ [none] ∧ (C_sam_none st).C_wg = st.C_wg ∧
    (C_sam_none st).trust = st.trust ∧ (C_sam_none st).notes = st.notes :=
  ⟨rfl, rfl, rfl, rfl, rfl, rfl⟩

@[simp] theorem C_wg_none_fields (st : CState) :
    (C_wg_none st).N_wg = st.N_wg ∧ (C_wg_none st).N_sam = st.N_sam ∧
    (C_wg_none st).C_sam = st.C_sam ∧ (C_wg_none st).C_wg = st.C_wg ++ [none] ∧
    (C_wg_none st).trust = st.trust ∧ (C_wg_none st).notes = st.notes :=
  ⟨rfl, rfl, rfl, rfl, rfl, rfl⟩

theorem length_eq_four {α : Type} {l : List α} (h : l.length = 4) :
    ∃ a b c d, l = [a, b, c, d] := by
  rcases l with _ | ⟨a, t⟩
  · simp at h
  · obtain ⟨b, c, d, rfl⟩ := List.length_eq_three.mp (by simpa using h)
    exact ⟨a, b, c, d, rfl⟩

theorem length_eq_five {α : Type} {l : List α} (h : l.length = 5) :
    ∃ a b c d e, l = [a, b, c, d, e] := by
  rcases l with _ | ⟨a, t⟩
  · simp at h
  · obtain ⟨b, c, d, e, rfl⟩ := length_eq_four (by simpa using h)
    exact ⟨a, b, c, d, e, rfl⟩

theorem classifyCN_N_sat (a : List Row) (k : Nat)
    (hsat : N_saturated (a.getD k dRow)) (hmem : some k ∈ (classifyCN a).N_sam) :
    (classifyCN a).trust = 0 ∧ "N2 cup saturated" ∈ (classifyCN a).notes := by
  revert hmem
  by_cases h1 : a.length = 1
  · obtain ⟨r0, rfl⟩ := List.length_eq_one.mp h1
    simp [classifyCN, st0]
  by_cases h2 : a.length = 2
  · obtain ⟨r0, r1, rfl⟩ := List.length_eq_two.mp h2
    simp only [classifyCN]
    split_ifs <;> simp_all [st0] <;> (try (split_ifs <;> simp_all)) <;>
      (try (intro hk; subst hk; simp_all))
  by_cases h3 : a.length = 3
  · obtain ⟨r0, r1, r2, rfl⟩ := List.length_eq_three.mp h3
    simp only [classifyCN]
    split_ifs <;> simp_all [st0] <;> (try (split_ifs <;> simp_all)) <;>
      (try (intro hk; subst hk; simp_all))
  by_cases h4 : a.length = 4
  · obtain ⟨r0, r1, r2, r3, rfl⟩ := length_eq_four h4
    simp only [classifyCN]
    split_ifs <;> simp_all [st0] <;> (try (split_ifs <;> simp_all)) <;>
      (try (intro hk; subst hk; simp_all))
  by_cases h5 : a.length = 5
  · obtain ⟨r0, r1, r2, r3, r4, rfl⟩ := length_eq_five h5
    simp only [classifyCN]
    rcases hA2 : r2.AreaAll with x | s | _ <;> rcases hA3 : r3.AreaAll with y | t | _ <;>
      split_ifs <;> simp_all [st0] <;> (try (split_ifs <;> simp_all)) <;>
      (try (split_ifs <;> simp_all)) <;> (try (intro hk; subst hk; simp_all))
  by_cases h6 : a.length = 6
  · simp [classifyCN, h1, h2, h3, h4, h5, h6, st0]
  · simp [classifyCN, h1, h2, h3, h4, h5, h6, st0]

theorem classifyCN_C_sat (a : List Row) (k : Nat)
    (hsat : C_saturated (a.getD k dRow)) (hmem : some k ∈ (classifyCN a).C_sam) :
    (classifyCN a).trust = 0 ∧ "CO2 cup saturated" ∈ (classifyCN a).notes := by
  revert hmem
  by_cases h1 : a.length = 1
  · obtain ⟨r0, rfl⟩ := List.length_eq_one.mp h1
    simp [classifyCN, st0]
  by_cases h2 : a.length = 2
  · obtain ⟨r0, r1, rfl⟩ := List.length_eq_two.mp h2
    simp only [classifyCN]
    split_ifs <;> simp_all [st0] <;> (try (split_ifs <;> simp_all)) <;>
      (try (intro hk; subst hk; simp_all))
  by_cases h3 : a.length = 3
  · obtain ⟨r0, r1, r2, rfl⟩ := List.length_eq_three.mp h3
    simp only [classifyCN]
    split_ifs <;> simp_all [st0] <;> (try (split_ifs <;> simp_all)) <;>
      (try (intro hk; subst hk; simp_all))
  by_cases h4 : a.length = 4
  · obtain ⟨r0, r1, r2, r3, rfl⟩ := length_eq_four h4
    simp only [classifyCN]
    split_ifs <;> simp_all [st0] <;> (try (split_ifs <;> simp_all)) <;>
      (try (intro hk; subst hk; simp_all))
  by_cases h5 : a.length = 5
  · obtain ⟨r0, r1, r2, r3, r4, rfl⟩ := length_eq_five h5
    simp only [classifyCN]
    rcases hA2 : r2.AreaAll with x | s | _ <;> rcases hA3 : r3.AreaAll with y | t | _ <;>
      split_ifs <;> simp_all [st0] <;> (try (split_ifs <;> simp_all)) <;>
      (try (split_ifs <;> simp_all)) <;> (try (intro hk; subst hk; simp_all))
  by_cases h6 : a.length = 6
  · simp [classifyCN, h1, h2, h3, h4, h5, h6, st0]
  · simp [classifyCN, h1, h2, h3, h4, h5, h6, st0]

theorem classifyN_N_sat (a : List Row) (k : Nat)
    (hsat : N_saturated (a.getD k dRow)) (hmem : some k ∈ (classifyN a).N_sam) :
    (classifyN a).trust = 0 ∧ "N2 cup saturated" ∈ (classifyN a).notes := by
  revert hmem
  by_cases h4 : a.length = 4
  · simp [classifyN, h4, st0]
  by_cases h5 : a.length = 5
  · obtain ⟨r0, r1, r2, r3, r4, rfl⟩ := length_eq_five h5
    simp only [classifyN]
    split_ifs <;> simp_all [st0] <;> (try (intro hk; subst hk; simp_all))
  · simp [classifyN, h4, h5, st0]

theorem classifyN_no_C_sam (a : List Row) (k : Nat)
    (hmem : some k ∈ (classifyN a).C_sam) : False := by
  revert hmem
  by_cases h4 : a.length = 4
  · simp [classifyN, h4, st0]
  by_cases h5 : a.length = 5
  · simp [classifyN, h4, h5, st0]
  · simp [classifyN, h4, h5, st0]

theorem classifyC_C_sat (a : List Row) (k : Nat)
    (hsat : C_saturated (a.getD k dRow)) (hmem : some k ∈ (classifyC a).C_sam) :
    (classifyC a).trust = 0 ∧ "CO2 cup saturated" ∈ (classifyC a).notes := by
  revert hmem
  by_cases h4 : a.length = 4
  · simp [classifyC, h4, st0]
  by_cases h5 : a.length = 5
  · obtain ⟨r0, r1, r2, r3, r4, rfl⟩ := length_eq_five h5
    simp only [classifyC]
    split_ifs <;> simp_all [st0] <;> (try (intro hk; subst hk; simp_all))
  · simp [classifyC, h4, h5, st0]

theorem classifyC_no_N_sam (a : List Row) (k : Nat)
    (hmem : some k ∈ (classifyC a).N_sam) : False := by
  revert hmem
  by_cases h4 : a.length = 4
  · simp [classifyC, h4, st0]
  by_cases h5 : a.length = 5
  · simp [classifyC, h4, h5, st0]
  · simp [classifyC, h4, h5, st0]

theorem classify_trust_le_one (rt : String) (a : List Row) :
    (classify rt a).trust ≤ 1 := by
  by_cases hCN : rt = "CN"
  · simp only [classify, hCN, if_true]
    by_cases h1 : a.length = 1
    · simp [classifyCN, h1, st0]
    by_cases h2 : a.length = 2
    · obtain ⟨r0, r1, rfl⟩ := List.length_eq_two.mp h2
      simp only [classifyCN]
      split_ifs <;> simp_all [st0] <;> (try (split_ifs <;> simp_all))
    by_cases h3 : a.length = 3
    · obtain ⟨r0, r1, r2, rfl⟩ := List.length_eq_three.mp h3
      simp only [classifyCN]
      split_ifs <;> simp_all [st0] <;> (try (split_ifs <;> simp_all))
    by_cases h4 : a.length = 4
    · obtain ⟨r0, r1, r2, r3, rfl⟩ := length_eq_four h4
      simp only [classifyCN]
      split_ifs <;> simp_all [st0] <;> (try (split_ifs <;> simp_all))
    by_cases h5 : a.length = 5
    · obtain ⟨r0, r1, r2, r3, r4, rfl⟩ := length_eq_five h5
      simp only [classifyCN]
      rcases hA2 : r2.AreaAll with x | s | _ <;> rcases hA3 : r3.AreaAll with y | t | _ <;>
        split_ifs <;> simp_all [st0] <;> (try (split_ifs <;> simp_all)) <;>
        (try (split_ifs <;> simp_all))
    by_cases h6 : a.length = 6
    · simp [classifyCN, h1, h2, h3, h4, h5, h6, st0]
    · simp [classifyCN, h1, h2, h3, h4, h5, h6, st0]
  by_cases hN : rt = "N"
  · simp only [classify, hCN, hN, if_true, if_false]
    by_cases h4 : a.length = 4
    · simp [classifyN, h4, st0]
    by_cases h5 : a.length = 5
    · simp only [classifyN]
      split_ifs <;> simp_all [st0] <;> (try (split_ifs <;> simp_all))
    · simp [classifyN, h4, h5, st0]
  by_cases hC : rt = "C"
  · simp only [classify, hCN, hN, hC, if_true, if_false]
    by_cases h4 : a.length = 4
    · simp [classifyC, h4, st0]
    by_cases h5 : a.length = 5
    · simp only [classifyC]
      split_ifs <;> simp_all [st0] <;> (try (split_ifs <;> simp_all))
    · simp [classifyC, h4, h5, st0]
  · simp [classify, hCN, hN, hC, st0]

/-- Claim C1: for every combined-mode analysis with exactly 4 rows, the
classifier assigns row 1 (index 0) to the nitrogen-reference slot, row 2 to
the nitrogen-sample slot, row 3 to the carbon-sample slot, row 4 to the
carbon-reference slot, and, absent saturation of the sample rows, the
analysis's trust flag is 1. -/
theorem C1_four_row_mapping (a : List Row) (h : a.length = 4) :
    (classifyCN a).N_wg = [some 0] ∧ (classifyCN a).N_sam = [some 1] ∧
    (classifyCN a).C_sam = [some 2] ∧ (classifyCN a).C_wg = [some 3] ∧
    (¬ N_saturated (a.getD 1 dRow) → ¬ C_saturated (a.getD 2 dRow) →
      (classifyCN a).trust = 1) := by
  obtain ⟨r0, r1, r2, r3, rfl⟩ := length_eq_four h
  simp [classifyCN, st0]
  intro hN hC
  simp [hN, hC]

/-- Witness for C1 at a concrete unsaturated 4-row analysis. -/
theorem C1_four_row_mapping_witness :
    ([exRowN2, exRowN2, exRowCO2, exRowCO2].length = 4) ∧
    (classifyCN [exRowN2, exRowN2, exRowCO2, exRowCO2]).N_wg = [some 0] ∧
    (classifyCN [exRowN2, exRowN2, exRowCO2, exRowCO2]).N_sam = [some 1] ∧
    (classifyCN [exRowN2, exRowN2, exRowCO2, exRowCO2]).C_sam = [some 2] ∧
    (classifyCN [exRowN2, exRowN2, exRowCO2, exRowCO2]).C_wg = [some 3] ∧
    (classifyCN [exRowN2, exRowN2, exRowCO2, exRowCO2]).trust = 1 := by
  have h := C1_four_row_mapping [exRowN2, exRowN2, exRowCO2, exRowCO2] (by decide)
  exact ⟨by decide, h.1, h.2.1, h.2.2.1, h.2.2.2.1, h.2.2.2.2 (by decide) (by decide)⟩

/-- Claim C2: whenever the classifier populates the nitrogen-sample or
carbon-sample slot with the data of row `k` and an amplitude channel of that
row exceeds 49950, the emitted trust flag is 0 and the corresponding
saturation note is present, whatever the run type and row-count branch; and
trust never exceeds its initial value 1, so the saturation check can only
lower trust. -/
theorem C2_saturation_downgrade :
    (∀ (rt : String) (a : List Row) (k : Nat),
      some k ∈ (classify rt a).N_sam → N_saturated (a.getD k dRow) →
      (classify rt a).trust = 0 ∧ "N2 cup saturated" ∈ (classify rt a).notes) ∧
    (∀ (rt : String) (a : List Row) (k : Nat),
      some k ∈ (classify rt a).C_sam → C_saturated (a.getD k dRow) →
      (classify rt a).trust = 0 ∧ "CO2 cup saturated" ∈ (classify rt a).notes) ∧
    (∀ (rt : String) (a : List Row), (classify rt a).trust ≤ 1) := by
  refine ⟨?_, ?_, classify_trust_le_one⟩
  · intro rt a k hmem hsat
    by_cases hCN : rt = "CN"
    · subst hCN
      have e : classify "CN" a = classifyCN a := by simp [classify]
      rw [e] at hmem ⊢
      exact classifyCN_N_sat a k hsat hmem
    by_cases hN : rt = "N"
    · subst hN
      have e : classify "N" a = classifyN a := by simp [classify]
      rw [e] at hmem ⊢
      exact classifyN_N_sat a k hsat hmem
    by_cases hC : rt = "C"
    · subst hC
      have e : classify "C" a = classifyC a := by simp [classify]
      rw [e] at hmem ⊢
      exact (classifyC_no_N_sam a k hmem).elim
    · simp [classify, hCN, hN, hC, st0] at hmem
  · intro rt a k hmem hsat
    by_cases hCN : rt = "CN"
    · subst hCN
      have e : classify "CN" a = classifyCN a := by simp [classify]
      rw [e] at hmem ⊢
      exact classifyCN_C_sat a k hsat hmem
    by_cases hN : rt = "N"
    · subst hN
      have e : classify "N" a = classifyN a := by simp [classify]
      rw [e] at hmem ⊢
      exact (classifyN_no_C_sam a k hmem).elim
    by_cases hC : rt = "C"
    · subst hC
      have e : classify "C" a = classifyC a := by simp [classify]
      rw [e] at hmem ⊢
      exact classifyC_C_sat a k hsat hmem
    · simp [classify, hCN, hN, hC, st0] at hmem

/-- Witness for C2 at a concrete 4-row analysis whose sample rows are
saturated in `Ampl28` respectively `Ampl44`. -/
theorem C2_saturation_downgrade_witness :
    (some 1 ∈ (classify "CN" [exRowN2, exRowN2sat, exRowCO2sat, exRowCO2]).N_sam ∧
     N_saturated ([exRowN2, exRowN2sat, exRowCO2sat, exRowCO2].getD 1 dRow) ∧
     (classify "CN" [exRowN2, exRowN2sat, exRowCO2sat, exRowCO2]).trust = 0 ∧
     "N2 cup saturated" ∈ (classify "CN" [exRowN2, exRowN2sat, exRowCO2sat, exRowCO2]).notes) ∧
    (some 2 ∈ (classify "CN" [exRowN2, exRowN2sat, exRowCO2sat, exRowCO2]).C_sam ∧
     C_saturated ([exRowN2, exRowN2sat, exRowCO2sat, exRowCO2].getD 2 dRow) ∧
     "CO2 cup saturated" ∈ (classify "CN" [exRowN2, exRowN2sat, exRowCO2sat, exRowCO2]).notes) ∧
    (classify "CN" [exRowN2, exRowN2sat, exRowCO2sat, exRowCO2]).trust ≤ 1 := by
  have h1 := C2_saturation_downgrade.1 "CN" [exRowN2, exRowN2sat, exRowCO2sat, exRowCO2] 1
    (by decide) (by decide)
  have h2 := C2_saturation_downgrade.2.1 "CN" [exRowN2, exRowN2sat, exRowCO2sat, exRowCO2] 2
    (by decide) (by decide)
  have h3 := C2_saturation_downgrade.2.2 "CN" [exRowN2, exRowN2sat, exRowCO2sat, exRowCO2]
  exact ⟨⟨by decide, by decide, h1.1, h1.2⟩, ⟨by decide, by decide, h2.2⟩, h3⟩

/-- Claim C3: behaviour of the combined-mode 5-row branch — with exactly two
`N2` labels, rows 1 and 2 fill the nitrogen slots, row 5 the carbon-reference
slot, and the carbon-sample slot is the larger-`AreaAll` one of rows 3 and 4
(with the corresponding note); when the comparison cannot be resolved
(`type(...) == int` fails), the carbon-sample slot is `None`, trust 0, note
recorded.  With exactly two `CO2` labels (and not two `N2`), nitrogen slots
are `None`, row 4 is carbon-sample, row 5 carbon-reference, note recorded,
trusted absent saturation.  Otherwise all slots `None`, trust 0, note
recorded. -/
theorem C3_five_row_branch (a : List Row) (h : a.length = 5) :
    ((a.map Row.gasconf).count (some "N2") = 2 →
      (classifyCN a).N_wg = [some 0] ∧ (classifyCN a).N_sam = [some 1] ∧
      (classifyCN a).C_wg = [some 4] ∧
      "extra CO2 peak detected" ∈ (classifyCN a).notes ∧
      (∀ x y : Int, (a.getD 2 dRow).AreaAll = Value.intV x →
        (a.getD 3 dRow).AreaAll = Value.intV y →
        ((x > y → (classifyCN a).C_sam = [some 2] ∧
            "using larger first of two sample peaks" ∈ (classifyCN a).notes) ∧
         (y > x → (classifyCN a).C_sam = [some 3] ∧
            "using larger second of two sample peaks" ∈ (classifyCN a).notes))) ∧
      ((is_intV (a.getD 2 dRow).AreaAll = false ∨ is_intV (a.getD 3 dRow).AreaAll = false) →
        (classifyCN a).C_sam = [none] ∧ (classifyCN a).trust = 0 ∧
        "problem with AreaAll data" ∈ (classifyCN a).notes)) ∧
    ((a.map Row.gasconf).count (some "N2") ≠ 2 →
      (a.map Row.gasconf).count (some "CO2") = 2 →
      (classifyCN a).N_wg = [none] ∧ (classifyCN a).N_sam = [none] ∧
      (classifyCN a).C_sam = [some 3] ∧ (classifyCN a).C_wg = [some 4] ∧
      "5 peaks in sample and N2 has extra" ∈ (classifyCN a).notes ∧
      (¬ C_saturated (a.getD 3 dRow) → (classifyCN a).trust = 1)) ∧
    ((a.map Row.gasconf).count (some "N2") ≠ 2 →
      (a.map Row.gasconf).count (some "CO2") ≠ 2 →
      (classifyCN a).N_wg = [none] ∧ (classifyCN a).N_sam = [none] ∧
      (classifyCN a).C_sam = [none] ∧ (classifyCN a).C_wg = [none] ∧
      (classifyCN a).trust = 0 ∧
      "5 peaks in sample but something unexpected happened" ∈ (classifyCN a).notes) := by
  obtain ⟨r0, r1, r2, r3, r4, rfl⟩ := length_eq_five h
  refine ⟨?_, ?_, ?_⟩
  · intro hc
    simp only [List.map_cons, List.map_nil] at hc
    rcases hA2 : r2.AreaAll with x | s | _ <;> rcases hA3 : r3.AreaAll with y | t | _ <;>
      simp [classifyCN, st0, hc, hA2, hA3, is_intV] <;>
      split_ifs <;> simp_all <;> (try (split_ifs <;> simp_all)) <;> omega
  · intro hn hc
    simp only [List.map_cons, List.map_nil] at hn hc
    simp [classifyCN, st0, hn, hc]
  · intro hn hc
    simp only [List.map_cons, List.map_nil] at hn hc
    simp [classifyCN, st0, hn, hc]

/-- Witness for C3 at a concrete 5-row analysis with two `N2` labels and
integer `AreaAll` values 40 > 30, so the first candidate row is chosen. -/
theorem C3_five_row_branch_witness :
    ([exRowN2, exRowN2, exRowCO2, exRowCO2b, exRowCO2].length = 5 ∧
     (([exRowN2, exRowN2, exRowCO2, exRowCO2b, exRowCO2].map Row.gasconf).count
       (some "N2") = 2)) ∧
    (classifyCN [exRowN2, exRowN2, exRowCO2, exRowCO2b, exRowCO2]).N_wg = [some 0] ∧
    (classifyCN [exRowN2, exRowN2, exRowCO2, exRowCO2b, exRowCO2]).N_sam = [some 1] ∧
    (classifyCN [exRowN2, exRowN2, exRowCO2, exRowCO2b, exRowCO2]).C_wg = [some 4] ∧
    (classifyCN [exRowN2, exRowN2, exRowCO2, exRowCO2b, exRowCO2]).C_sam = [some 2] ∧
    "using larger first of two sample peaks" ∈
      (classifyCN [exRowN2, exRowN2, exRowCO2, exRowCO2b, exRowCO2]).notes := by
  have h := (C3_five_row_branch [exRowN2, exRowN2, exRowCO2, exRowCO2b, exRowCO2]
    (by decide)).1 (by decide)
  have h5 := (h.2.2.2.2.1 40 30 (by decide) (by decide)).1 (by decide)
  exact ⟨⟨by decide, by decide⟩, h.1, h.2.1, h.2.2.1, h5.1, h5.2⟩

/-- Claim C4 (amended): when the blank category is nonempty and both blank
means are finite, areas are corrected by subtracting the mean blank area and
deltas by the two-source mixing formula; otherwise the corrected columns
equal the raw ones and the `NOT applied` note is recorded.  (The spec's
worked example evaluates to `-467/89 ≈ -5.25`, not `-5.15`; see the
counterexample.) -/
theorem C4_blank_correction :
    (∀ (bidx : List Nat) (areas deltas : List (Option ℚ)) (bA bD : ℚ),
      bidx ≠ [] →
      nanmean (select areas bidx) = some bA →
      nanmean (select deltas bidx) = some bD →
      (blank_correction bidx areas deltas).N_sam_AreaAll_blank_corr =
          areas.map (fun a => a.map (fun q => q - bA)) ∧
      (blank_correction bidx areas deltas).calculation_notes =
          ["nitrogen blank correction applied"] ∧
      (∀ (i : Nat) (d a : ℚ), deltas.get? i = some (some d) →
        areas.get? i = some (some a) → a - bA ≠ 0 →
        (blank_correction bidx areas deltas).d15N_blank_corr.get? i =
          some (some ((d * a - bD * bA) / (a - bA))))) ∧
    (∀ (bidx : List Nat) (areas deltas : List (Option ℚ)),
      bidx ≠ [] →
      (nanmean (select areas bidx) = none ∨ nanmean (select deltas bidx) = none) →
      blank_correction bidx areas deltas =
        ⟨areas, deltas, ["nitrogen blank correction NOT applied"]⟩) ∧
    (∀ (areas deltas : List (Option ℚ)),
      blank_correction [] areas deltas =
        ⟨areas, deltas, ["nitrogen blank correction NOT applied"]⟩) := by
  refine ⟨?_, ?_, ?_⟩
  · intro bidx areas deltas bA bD h1 h2 h3
    have e : blank_correction bidx areas deltas =
        { N_sam_AreaAll_blank_corr := areas.map (fun a => a.map (fun q => q - bA)),
          d15N_blank_corr := List.zipWith (blank_corr_delta bA bD) deltas areas,
          calculation_notes := ["nitrogen blank correction applied"] } := by
      simp [blank_correction, h1, h2, h3]
    refine ⟨by rw [e], by rw [e], ?_⟩
    intro i d a hd ha hne
    rw [e]
    simp only [List.get?_eq_getElem?] at hd ha ⊢
    simp [List.getElem?_zipWith', hd, ha, blank_corr_delta, hne]
  · intro bidx areas deltas h1 h2
    rcases h2 with h2 | h2
    · simp [blank_correction, h1, h2]
    · rcases hA : nanmean (select areas bidx) with _ | bA <;>
        simp [blank_correction, h1, h2, hA]
  · intro areas deltas
    simp [blank_correction]

/-- Witness for C4 at the spec's worked example: blank areas 10 and 12
(mean 11), blank deltas -2 and -4 (mean -3), sample area 100, sample delta
-5. -/
theorem C4_blank_correction_witness :
    (([0, 1] : List Nat) ≠ [] ∧
     nanmean (select exAreas [0, 1]) = some 11 ∧
     nanmean (select exDeltas [0, 1]) = some (-3)) ∧
    (blank_correction [0, 1] exAreas exDeltas).N_sam_AreaAll_blank_corr =
      exAreas.map (fun a => a.map (fun q => q - 11)) ∧
    (blank_correction [0, 1] exAreas exDeltas).d15N_blank_corr.get? 2 =
      some (some ((-5 * 100 - -3 * 11) / (100 - 11))) := by
  have hA : nanmean (select exAreas [0, 1]) = some 11 := by
    norm_num +decide [nanmean, select, exAreas, List.filterMap_cons, List.filterMap_nil]
  have hD : nanmean (select exDeltas [0, 1]) = some (-3) := by
    norm_num +decide [nanmean, select, exDeltas, List.filterMap_cons, List.filterMap_nil]
  have h := C4_blank_correction.1 [0, 1] exAreas exDeltas 11 (-3) (by decide) hA hD
  exact ⟨⟨by decide, hA, hD⟩, h.1,
    h.2.2 2 (-5) 100 (by norm_num [exDeltas]) (by norm_num [exAreas]) (by norm_num)⟩

/-- Counterexample for C4 as stated: on the spec's own example the corrected
delta is `-467/89 ≈ -5.247`, which lies strictly below `-5.2` and is not
`-5.15`. -/
theorem C4_blank_example_counterexample :
    blank_correction [0, 1] exAreas exDeltas =
      ⟨[some (-1), some 1, some 89], [some (-13), some (-15), some (-467 / 89)],
       ["nitrogen blank correction applied"]⟩ ∧
    ((-467 / 89 : ℚ) ≠ -515 / 100) ∧ ((-467 / 89 : ℚ) < -52 / 10) ∧
    ((-53 / 10 : ℚ) < -467 / 89) := by
  refine ⟨?_, by norm_num, by norm_num, by norm_num⟩
  norm_num +decide [blank_correction, nanmean, select, blank_corr_delta, exAreas, exDeltas,
    List.filterMap_cons, List.filterMap_nil]

/-- Claim C5 (amended): the quantity fit on points (mass 1, area 100) and
(mass 2, area 200) yields slope 100 and intercept 0 and a blank-corrected
area of 150 converts to quantity 1.5; percent composition is
`quantity / amount * 100` for a nonzero finite amount, NaN results (such as
0/0) are coerced to 0, while an infinite result from dividing a nonzero
quantity by amount 0 is coerced to `±np.finfo(float).max`, not 0. -/
theorem C5_quantity_calibration :
    polyfit1 [1, 2] [100, 200] = (100, 0) ∧
    quantity_from_area (polyfit1 [1, 2] [100, 200]) 150 = 3 / 2 ∧
    (∀ q a : ℚ, a ≠ 0 → percent_composition (NPF.fin q) (NPF.fin a) = q / a * 100) ∧
    percent_composition NPF.nan (NPF.fin 5) = 0 ∧
    percent_composition (NPF.fin 0) (NPF.fin 0) = 0 ∧
    (∀ q : ℚ, 0 < q → percent_composition (NPF.fin q) (NPF.fin 0) = max_float) ∧
    (∀ q : ℚ, q < 0 → percent_composition (NPF.fin q) (NPF.fin 0) = -max_float) := by
  refine ⟨by norm_num [polyfit1], by norm_num [polyfit1, quantity_from_area], ?_, rfl, ?_, ?_, ?_⟩
  · intro q a ha
    norm_num [percent_composition, NPF.div, NPF.mul, nan_to_num, ha]
  · norm_num [percent_composition, NPF.div, NPF.mul, nan_to_num]
  · intro q hq
    norm_num [percent_composition, NPF.div, NPF.mul, nan_to_num, hq, hq.ne', max_float]
  · intro q hq
    norm_num [percent_composition, NPF.div, NPF.mul, nan_to_num, hq, hq.ne,
      not_lt_of_gt hq, max_float]

/-- Witness for C5: concrete instantiations of the percent-composition
clauses. -/
theorem C5_quantity_calibration_witness :
    ((2 : ℚ) ≠ 0 ∧ percent_composition (NPF.fin 3) (NPF.fin 2) = 3 / 2 * 100) ∧
    ((0 : ℚ) < 3 / 2 ∧ percent_composition (NPF.fin (3 / 2)) (NPF.fin 0) = max_float) ∧
    ((-1 : ℚ) < 0 ∧ percent_composition (NPF.fin (-1)) (NPF.fin 0) = -max_float) := by
  refine ⟨⟨by norm_num, ?_⟩, ⟨by norm_num, ?_⟩, ⟨by norm_num, ?_⟩⟩
  · exact C5_quantity_calibration.2.2.1 3 2 (by norm_num)
  · exact C5_quantity_calibration.2.2.2.2.2.1 (3 / 2) (by norm_num)
  · exact C5_quantity_calibration.2.2.2.2.2.2 (-1) (by norm_num)

/-- Counterexample for C5 as stated: dividing the nonzero quantity 3/2 by
amount 0 gives an infinite percent composition which `np.nan_to_num` coerces
to the largest finite double — an astronomically large value, not 0. -/
theorem C5_divzero_counterexample :
    percent_composition (NPF.fin (3 / 2)) (NPF.fin 0) = max_float ∧
    max_float ≠ 0 ∧ (10 : ℚ) ^ 300 < max_float := by
  refine ⟨?_, by norm_num [max_float], by norm_num [max_float]⟩
  norm_num [percent_composition, NPF.div, NPF.mul, nan_to_num, max_float]

/-- Claim C6 (code bug): on a column containing a non-integer analysis id the
file is moved to the junk directory, but the `continue` targets the inner
conversion loop, so with at least two column entries the conversion is
retried and the second `os.rename` of the now-missing file raises an uncaught
`FileNotFoundError` — the batch crashes instead of continuing with the next
file. -/
theorem C6_id_conversion_crash :
    analysis_id_check ["1", "abc"] = IdCheck.movedThenCrashed ∧
    analysis_id_check ["abc"] = IdCheck.movedThenKeptProcessing ∧
    analysis_id_check ["12", "-3"] = IdCheck.converted [12, -3] := by
  decide

/-- Claim C7 (amended): a file whose gas-configuration labels contain neither
`N2` nor `CO2` gets run type `unk`, is moved to the junk directory, and no
analyses at all are emitted (the `Run type unknown` emit branch is
unreachable). -/
theorem C7_unknown_run_junked (analyses : List (List Row))
    (g : List (Option String)) (hN : some "N2" ∉ g) (hC : some "CO2" ∉ g) :
    processFile analyses g = ⟨[], "rawdata_junk"⟩ := by
  simp [processFile, run_type_of, hN, hC]

/-- Witness for C7 at a one-analysis file labelled only `He`. -/
theorem C7_unknown_run_junked_witness :
    (some "N2" ∉ [some "He"] ∧ some "CO2" ∉ [some "He"]) ∧
    processFile [[exRowHe]] [some "He"] = ⟨[], "rawdata_junk"⟩ :=
  ⟨⟨by decide, by decide⟩,
    C7_unknown_run_junked [[exRowHe]] [some "He"] (by decide) (by decide)⟩

/-- Counterexample for C7 as stated: a one-analysis file with unknown gas
labels emits no analysis row at all (it is junked), contradicting the claim
that every analysis is emitted with trust 0 and the `Run type unknown`
note. -/
theorem C7_unknown_run_counterexample :
    (processFile [[exRowHe]] [some "He"]).emitted = [] ∧
    (processFile [[exRowHe]] [some "He"]).moved_to = "rawdata_junk" ∧
    ¬ (processFile [[exRowHe]] [some "He"]).emitted.length = 1 := by
  decide

/-- Claim C8 (code bug): creating a log file evaluates the undefined name
`CN_analysis_log_headers` (the library defines only
`shrekCN_analysis_log_headers`), raising `NameError` before any header is
written; only the append path (file already exists) works, and it appends
rows after the existing contents. -/
theorem C8_log_header_name_error :
    write_analysis_log none [[some "42"]] =
      LogWrite.nameError "name CN_analysis_log_headers is not defined" ∧
    lookup_global "shrekCN_analysis_log_headers" = some shrekCN_analysis_log_headers ∧
    write_analysis_log (some [[some "h"], [some "1"]]) [[some "2"]] =
      LogWrite.ok [[some "h"], [some "1"], [some "2"]] := by
  refine ⟨rfl, rfl, rfl⟩

/-- Claim C9 (amended): a combined-mode 2-row analysis whose second row is
labelled `N2` fills the nitrogen-reference slot from row 1 and the
nitrogen-sample slot from row 2, leaves both carbon slots `None`, records the
note `No carbon peaks` (capital N), and, absent N2 saturation of row 2, has
trust 1. -/
theorem C9_two_row_N2 (a : List Row) (h : a.length = 2)
    (hg : (a.getD 1 dRow).gasconf = some "N2") :
    (classifyCN a).N_wg = [some 0] ∧ (classifyCN a).N_sam = [some 1] ∧
    (classifyCN a).C_sam = [none] ∧ (classifyCN a).C_wg = [none] ∧
    "No carbon peaks" ∈ (classifyCN a).notes ∧
    (¬ N_saturated (a.getD 1 dRow) → (classifyCN a).trust = 1) := by
  obtain ⟨r0, r1, rfl⟩ := List.length_eq_two.mp h
  simp only [List.getD_cons_succ, List.getD_cons_zero] at hg ⊢
  by_cases hsat : N_saturated r1 <;> simp [classifyCN, st0, hg, hsat]

/-- Witness for C9 at a concrete unsaturated 2-row analysis. -/
theorem C9_two_row_N2_witness :
    ([exRowN2, exRowN2].length = 2 ∧ exRowN2.gasconf = some "N2") ∧
    (classifyCN [exRowN2, exRowN2]).N_wg = [some 0] ∧
    (classifyCN [exRowN2, exRowN2]).N_sam = [some 1] ∧
    (classifyCN [exRowN2, exRowN2]).C_sam = [none] ∧
    (classifyCN [exRowN2, exRowN2]).C_wg = [none] ∧
    "No carbon peaks" ∈ (classifyCN [exRowN2, exRowN2]).notes ∧
    (classifyCN [exRowN2, exRowN2]).trust = 1 := by
  have h := C9_two_row_N2 [exRowN2, exRowN2] (by decide) (by decide)
  exact ⟨⟨by decide, by decide⟩, h.1, h.2.1, h.2.2.1, h.2.2.2.1, h.2.2.2.2.1,
    h.2.2.2.2.2 (by decide)⟩

/-- Counterexample for C9 as stated: the note written by the 2-row `N2`
branch is the capitalised string `No carbon peaks`; the notes do not contain
the claimed lowercase string `no carbon peaks`. -/
theorem C9_note_case_counterexample :
    (classifyCN [exRowN2, exRowN2]).notes = ["No carbon peaks"] ∧
    "no carbon peaks" ∉ (classifyCN [exRowN2, exRowN2]).notes ∧
    (classifyCN [exRowN2, exRowN2]).trust = 1 ∧
    (classifyCN [exRowN2, exRowN2]).N_wg = [some 0] ∧
    (classifyCN [exRowN2, exRowN2]).N_sam = [some 1] ∧
    (classifyCN [exRowN2, exRowN2]).C_sam = [none] ∧
    (classifyCN [exRowN2, exRowN2]).C_wg = [none] := by
  decide

/-- Claim C10 (code bug): in the combined-mode 2-row and 3-row branches,
when the second row's gas label is neither `N2` nor `CO2` no entry at all —
neither row data nor an explicit `None` — is appended to the
nitrogen-sample, carbon-sample (and, for 2 rows, carbon-reference)
collections, so the per-analysis arrays end up with unequal lengths. -/
theorem C10_ragged_append_counts :
    (classifyCN [exRowHe, exRowHe]).N_wg.length = 1 ∧
    (classifyCN [exRowHe, exRowHe]).N_sam.length = 0 ∧
    (classifyCN [exRowHe, exRowHe]).C_sam.length = 0 ∧
    (classifyCN [exRowHe, exRowHe]).C_wg.length = 0 ∧
    (classifyCN [exRowHe, exRowHe, exRowHe]).N_wg.length = 1 ∧
    (classifyCN [exRowHe, exRowHe, exRowHe]).N_sam.length = 0 ∧
    (classifyCN [exRowHe, exRowHe, exRowHe]).C_sam.length = 0 ∧
    (classifyCN [exRowHe, exRowHe, exRowHe]).C_wg.length = 1 := by
  decide

end CN
